import Mathlib

/-!
EngineMain: session flags, start-up and the fixed-tick game loop

A shallow embedding of `apps/freeablo/engine/enginemain.cpp`.

* The member flags of `EngineMain` are the record `Session`.
* Every call the code makes on a collaborator (renderer, world, GUI, input,
  timer, player factory) is logged, in program order, as a `Call`; the functions
  return the new state together with the list of calls they made.
* What the collaborators answer (does the settings file load, is there a save,
  which slot does the renderer hand out, how long did the body take, which
  session methods were invoked from outside while a step ran) is the
  environment: `Environment` for start-up, `TickEnv` for one loop iteration.
-/

namespace Engine

/-! ## Data model -/

/-- Keyboard actions delivered to `EngineMain::notify`.  The enum is declared in a
header; `notify` distinguishes `pause`, `quit` and `noclip`, every other
enumerator is `other code`. -/
inductive KeyboardInputAction where
  | pause
  | quit
  | noclip
  | other (code : Nat)
  deriving DecidableEq, Repr

/-- The part of `FAWorld::Player` the engine touches: the class it was built
from, the `mInvuln` flag, `getPos()` and the graphic of the item held by the
cursor. -/
structure Player where
  cls : String
  mInvuln : Bool
  pos : Int × Int
  cursorGraphic : Nat
  deriving DecidableEq, Repr

/-- Member state of `EngineMain` used by the loop and by `notify`. -/
structure Session where
  mDone : Bool
  mPaused : Bool
  mNoclip : Bool
  mInGame : Bool
  mPlayer : Option Player
  deriving DecidableEq, Repr

/-- Fields of `FARender::RenderState` assigned by the loop body. -/
inductive SlotField where
  | mPos
  | tileset
  | level
  | mCursorEmpty
  | mCursorFrame
  | mCursorSpriteGroup
  | nuklearData
  deriving DecidableEq, Repr

/-- Calls made on collaborators, in the order the code makes them.  Slots and
levels are identified by a number (the pointer). -/
inductive Call where
  | srand
  | loadUserSettings
  | loadExe
  | rendererStop
  | rendererWaitUntilDone
  | loadFonts
  | openSave
  | worldFromSave
  | worldFresh
  | worldGetCurrentPlayer
  | generateLevels
  | playerCreate (cls : String)
  | guiManagerCreate
  | registerKeyboardObserverGui
  | setGuiManager
  | worldSetGuiManager
  | worldAddCurrentPlayer
  | guiSetPlayer
  | worldSetLevel (index : Int)
  | localInputHandlerCreate
  | registerMouseObserver
  | registerKeyboardObserverLocal
  | timerStart (ms : Int)
  | inputUpdate (paused : Bool)
  | localInputUpdate
  | worldUpdate (noclip : Bool)
  | playLevelMusic (index : Int)
  | guiUpdate (inGame paused : Bool)
  | getFreeState (slot : Option Nat)
  | assignPos (slot : Nat) (pos : Int × Int)
  | assignTileset (slot : Nat) (level : Nat)
  | assignLevel (slot : Nat) (level : Option Nat)
  | fillRenderState (slot : Nat)
  | assignCursorEmpty (slot : Nat) (empty : Bool)
  | assignCursorFrame (slot : Nat) (frame : Nat)
  | assignCursorSpriteGroup (slot : Nat)
  | nuklearFill (slot : Nat)
  | getSpritesNeedingPreloading
  | sendSpritesForPreload (sprites : List Nat)
  | nkClear
  | setCurrentState (slot : Option Nat)
  | reportOverrun (ms : Int)
  | timerWait (blockedMs : Int)
  deriving DecidableEq, Repr

/-! ## The small member functions -/

/-- Body of `EngineMain::stop`. -/
def stop (s : Session) : Session := { s with mDone := true }

/-- Body of `EngineMain::togglePause`. -/
def togglePause (s : Session) : Session := { s with mPaused := !s.mPaused }

/-- Body of `EngineMain::toggleNoclip`. -/
def toggleNoclip (s : Session) : Session := { s with mNoclip := !s.mNoclip }

/-- Body of `EngineMain::notify`; `pauseBlocked` is what
`mGuiManager->isPauseBlocked()` answers. -/
def notify (pauseBlocked : Bool) (action : KeyboardInputAction) (s : Session) : Session :=
  if pauseBlocked then s
  else if s.mPaused && action != KeyboardInputAction.pause then s
  else
    let s1 := if action = KeyboardInputAction.pause then togglePause s else s
    if action = KeyboardInputAction.quit then stop s1
    else if action = KeyboardInputAction.noclip then toggleNoclip s1
    else s1

/-- Body of `EngineMain::setupNewPlayer`. -/
def setupNewPlayer (player : Player) (s : Session) : Session × List Call :=
  ({ s with mPlayer := some player }, [Call.worldAddCurrentPlayer, Call.guiSetPlayer])

/-- Body of `EngineMain::startGame`; `create` is `PlayerFactory::create`. -/
def startGame (create : String → Player) (characterClass : String) (s : Session) :
    Session × List Call :=
  let s1 := { s with mInGame := true }
  let player := create characterClass
  let r := setupNewPlayer player s1
  (r.1, [Call.playerCreate characterClass] ++ r.2 ++ [Call.worldSetLevel 0])

/-! ## Calls into the session from outside the loop body -/

/-- Public methods of `EngineMain` that a collaborator (keyboard dispatch inside
`mInputManager->update`, a GUI callback, another thread) may invoke while the
loop body is running. -/
inductive SessionCall where
  | notify (pauseBlocked : Bool) (action : KeyboardInputAction)
  | stop
  | togglePause
  | toggleNoclip
  | startGame (characterClass : String)
  deriving DecidableEq, Repr

/-- Effect of one such call on the session, with the collaborator calls it makes. -/
def SessionCall.apply (create : String → Player) (c : SessionCall) (s : Session) :
    Session × List Call :=
  match c with
  | .notify b a => (Engine.notify b a s, [])
  | .stop => (Engine.stop s, [])
  | .togglePause => (Engine.togglePause s, [])
  | .toggleNoclip => (Engine.toggleNoclip s, [])
  | .startGame cls => Engine.startGame create cls s

/-- Effect of a sequence of such calls, in arrival order. -/
def applyCalls (create : String → Player) : List SessionCall → Session → Session × List Call
  | [], s => (s, [])
  | c :: cs, s =>
    let r := c.apply create s
    let r2 := applyCalls create cs r.1
    (r2.1, r.2 ++ r2.2)

/-! ## Start-up part of `runGameLoop` (lines 65-141) -/

/-- The entries of the `bpo::variables_map` read by `runGameLoop`. -/
structure Variables where
  character : String
  level : Int
  invuln : String
  deriving DecidableEq, Repr

/-- What the collaborators answer during one loop iteration.

* `calls p`: the session methods invoked from outside at point `p` of the
  iteration: `0` between the loop condition and the first step, `k` (1 to 8)
  while or right after step `k` runs (input poll, local-input update, world
  update, GUI update, slot fill, preload forwarding, `setCurrentState`, deadline
  wait);
* `levelIndex`: `mWorld->getCurrentLevelIndex()`;
* `freeState`: `renderer.getFreeState()` (`none` is the null pointer);
* `currentLevel`: `mWorld->getCurrentLevel()` (`none` is `NULL`);
* `cursorPathEmpty`: `FAGui::cursorPath.empty()`;
* `worldCurrentPlayer`: `mWorld->getCurrentPlayer()`;
* `preload`: `some l` when `getAndClearSpritesNeedingPreloading` returns true
  with list `l`;
* `duration`: milliseconds elapsed between the construction of the timer and
  the read of `expires_from_now()`. -/
structure TickEnv where
  calls : Nat → List SessionCall
  levelIndex : Int
  freeState : Option Nat
  currentLevel : Option Nat
  cursorPathEmpty : Bool
  worldCurrentPlayer : Option Player
  preload : Option (List Nat)
  duration : Nat

/-- What the collaborators answer during a run of `runGameLoop`.

* `settingsLoad`: `settings.loadUserSettings()`;
* `exeLoaded`: `mExe->isLoaded()`;
* `save`: `none` when `fopen("save.sav", "rb")` returns null, otherwise
  `some p` where `p` is `getCurrentPlayer()` of the world rebuilt from the file;
* `create`: `PlayerFactory::create`;
* `ticksPerSecond`: the constant `FAWorld::World::ticksPerSecond`;
* `ticks i`: the environment of iteration `i` of the loop. -/
structure Environment where
  settingsLoad : Bool
  exeLoaded : Bool
  save : Option (Option Player)
  create : String → Player
  ticksPerSecond : Nat
  ticks : Nat → TickEnv

/-- Local state of the loop: the session and the local `lastLevelIndex`. -/
structure LoopState where
  session : Session
  lastLevelIndex : Int
  deriving DecidableEq, Repr

/-- Lines 88-123: open `save.sav` and build the world from it, or build a fresh
world.  Returns the session, the calls made and the local `currentLevel`. -/
def loadOrCreateWorld (env : Environment) (vars : Variables) (characterClass : String)
    (s : Session) : Session × List Call × Int :=
  match env.save with
  | some saved =>
    ({ s with mPlayer := saved, mInGame := true },
      [Call.openSave, Call.worldFromSave, Call.worldGetCurrentPlayer], -1)
  | none =>
    let currentLevel := vars.level
    let t := [Call.openSave, Call.worldFresh, Call.generateLevels]
    if currentLevel != -1 then
      let created := env.create characterClass
      let player := if vars.invuln == "on" then { created with mInvuln := true } else created
      ({ s with mInGame := true, mPlayer := some player },
        t ++ [Call.playerCreate characterClass], currentLevel)
    else (s, t, currentLevel)

/-- Lines 125-139: GUI manager, `setupNewPlayer` when there is a player,
`setLevel` when a level was requested, local input handler. -/
def finishSetup (currentLevel : Int) (s : Session) : Session × List Call :=
  let t1 := [Call.guiManagerCreate, Call.registerKeyboardObserverGui, Call.setGuiManager,
    Call.worldSetGuiManager]
  let r := match s.mPlayer with
    | some p => setupNewPlayer p s
    | none => (s, [])
  let t2 := if currentLevel != -1 then [Call.worldSetLevel currentLevel] else []
  (r.1, t1 ++ r.2 ++ t2 ++
    [Call.localInputHandlerCreate, Call.registerMouseObserver, Call.registerKeyboardObserverLocal])

/-- Lines 65-141 of `runGameLoop`: everything before the loop.  The third
component is `none` when the function returned early, otherwise the state with
which the loop condition is first evaluated. -/
def startup (env : Environment) (vars : Variables) (s : Session) :
    Session × List Call × Option LoopState :=
  let t0 := [Call.srand, Call.loadUserSettings]
  if !env.settingsLoad then (s, t0, none)
  else
    let characterClass := vars.character
    let t1 := t0 ++ [Call.loadExe]
    if !env.exeLoaded then (s, t1 ++ [Call.rendererStop], none)
    else
      let t2 := t1 ++ [Call.loadFonts]
      let w := loadOrCreateWorld env vars characterClass s
      let g := finishSetup w.2.2 w.1
      (g.1, t2 ++ w.2.1 ++ g.2, some { session := g.1, lastLevelIndex := -1 })

/-! ## One iteration of the loop (lines 146-203) -/

/-- Lines 146-149 with the outside calls of points 0, 1 and 2: timer
construction, `mInputManager->update(mPaused)`, `mLocalInputHandler->update()`. -/
def inputPhase (create : String → Player) (tps : Nat) (te : TickEnv) (s : Session) :
    Session × List Call :=
  let p0 := applyCalls create (te.calls 0) s
  let p1 := applyCalls create (te.calls 1) p0.1
  let p2 := applyCalls create (te.calls 2) p1.1
  (p2.1, p0.2 ++ [Call.timerStart (1000 / (tps : Int))] ++ [Call.inputUpdate p0.1.mPaused] ++ p1.2
    ++ [Call.localInputUpdate] ++ p2.2)

/-- Lines 150-159: the guarded world update and the level-music trigger. -/
def worldPhase (te : TickEnv) (ls : LoopState) : LoopState × List Call :=
  if !ls.session.mPaused && ls.session.mInGame then
    if te.levelIndex != ls.lastLevelIndex then
      ({ ls with lastLevelIndex := te.levelIndex },
        [Call.worldUpdate ls.session.mNoclip, Call.playLevelMusic te.levelIndex])
    else (ls, [Call.worldUpdate ls.session.mNoclip])
  else (ls, [])

/-- Lines 166-187: the writes to the slot `getFreeState` returned, none when it
returned null. -/
def slotWrites (te : TickEnv) (s : Session) : List Call :=
  match te.freeState with
  | none => []
  | some state =>
    (match s.mPlayer with
      | some player =>
        [Call.assignPos state player.pos] ++
        (match te.currentLevel with
          | some level => [Call.assignTileset state level]
          | none => []) ++
        [Call.assignLevel state te.currentLevel, Call.fillRenderState state]
      | none => [Call.assignLevel state none]) ++
    [Call.assignCursorEmpty state (if !te.cursorPathEmpty then false else true)] ++
    [Call.assignCursorFrame state
      (match te.worldCurrentPlayer with
        | some p => p.cursorGraphic
        | none => 0)] ++
    [Call.assignCursorSpriteGroup state, Call.nuklearFill state]

/-- Lines 164-188: acquire a slot and fill it. -/
def fillSlot (te : TickEnv) (s : Session) : List Call :=
  [Call.getFreeState te.freeState] ++ slotWrites te s

/-- Lines 190-192: forward the sprites the renderer wants preloaded. -/
def preloadPhase (te : TickEnv) : List Call :=
  [Call.getSpritesNeedingPreloading] ++
  match te.preload with
  | some sprites => [Call.sendSpritesForPreload sprites]
  | none => []

/-- Lines 198-203: read the time left on the timer, report an overrun when it is
negative, then wait for the timer. -/
def deadlinePhase (budget : Int) (duration : Nat) : List Call :=
  let remainingTickTime : Int := budget - (duration : Int)
  (if remainingTickTime < 0 then [Call.reportOverrun (-remainingTickTime)] else []) ++
  [Call.timerWait (max remainingTickTime 0)]

/-- The body of the `while (!mDone)` loop. -/
def iteration (create : String → Player) (tps : Nat) (te : TickEnv) (ls : LoopState) :
    LoopState × List Call :=
  let a := inputPhase create tps te ls.session
  let w := worldPhase te { ls with session := a.1 }
  let p3 := applyCalls create (te.calls 3) w.1.session
  let p4 := applyCalls create (te.calls 4) p3.1
  let p5 := applyCalls create (te.calls 5) p4.1
  let p6 := applyCalls create (te.calls 6) p5.1
  let p7 := applyCalls create (te.calls 7) p6.1
  let p8 := applyCalls create (te.calls 8) p7.1
  ({ w.1 with session := p8.1 },
    a.2 ++ w.2 ++ p3.2
    ++ [Call.guiUpdate p3.1.mInGame p3.1.mPaused] ++ p4.2
    ++ fillSlot te p4.1 ++ p5.2
    ++ preloadPhase te ++ p6.2
    ++ [Call.nkClear, Call.setCurrentState te.freeState] ++ p7.2
    ++ deadlinePhase (1000 / (tps : Int)) te.duration ++ p8.2)

/-! ## The loop and the whole function -/

/-- Lines 144-207: `while (!mDone) body` followed by the renderer shutdown.
`fuel` bounds the number of evaluations of the loop condition; `i` is the index
of the next iteration.  `none` means the fuel ran out before `mDone` was seen. -/
def runLoop (create : String → Player) (tps : Nat) (ticks : Nat → TickEnv) :
    Nat → Nat → LoopState → Option (LoopState × List Call)
  | 0, _, _ => none
  | fuel + 1, i, ls =>
    if ls.session.mDone then some (ls, [Call.rendererStop, Call.rendererWaitUntilDone])
    else
      let r := iteration create tps (ticks i) ls
      match runLoop create tps ticks fuel (i + 1) r.1 with
      | none => none
      | some (ls2, t) => some (ls2, r.2 ++ t)

/-- The function `EngineMain::runGameLoop`: final session and all calls made. -/
def runGameLoop (fuel : Nat) (env : Environment) (vars : Variables) (s : Session) :
    Option (Session × List Call) :=
  let st := startup env vars s
  match st.2.2 with
  | none => some (st.1, st.2.1)
  | some ls =>
    match runLoop env.create env.ticksPerSecond env.ticks fuel 0 ls with
    | none => none
    | some (ls2, t) => some (ls2.session, st.2.1 ++ t)

/-! ## Observations on a list of calls -/

/-- The steps of one loop iteration, as the loop orders them. -/
inductive Step where
  | inputPoll
  | localInput
  | worldUpdate
  | guiUpdate
  | slotFill
  | preload
  | setCurrentState
  | deadlineWait
  deriving DecidableEq, Repr

/-- The step a call opens, if it opens one. -/
def Call.step : Call → Option Step
  | .inputUpdate _ => some .inputPoll
  | .localInputUpdate => some .localInput
  | .worldUpdate _ => some .worldUpdate
  | .guiUpdate _ _ => some .guiUpdate
  | .getFreeState _ => some .slotFill
  | .getSpritesNeedingPreloading => some .preload
  | .setCurrentState _ => some .setCurrentState
  | .timerWait _ => some .deadlineWait
  | _ => none

/-- The steps performed by a list of calls, in order. -/
def stepsOf (t : List Call) : List Step := t.filterMap Call.step

/-- The slot a call writes to, if it writes to a render-state slot. -/
def Call.writesSlot : Call → Option Nat
  | .assignPos slot _ => some slot
  | .assignTileset slot _ => some slot
  | .assignLevel slot _ => some slot
  | .fillRenderState slot => some slot
  | .assignCursorEmpty slot _ => some slot
  | .assignCursorFrame slot _ => some slot
  | .assignCursorSpriteGroup slot => some slot
  | .nuklearFill slot => some slot
  | _ => none

/-- The render-state field a call assigns, if it is one of the loop's own
assignments. -/
def Call.field : Call → Option SlotField
  | .assignPos _ _ => some .mPos
  | .assignTileset _ _ => some .tileset
  | .assignLevel _ _ => some .level
  | .assignCursorEmpty _ _ => some .mCursorEmpty
  | .assignCursorFrame _ _ => some .mCursorFrame
  | .assignCursorSpriteGroup _ => some .mCursorSpriteGroup
  | .nuklearFill _ => some .nuklearData
  | _ => none

/-- Calls of kind `World::update`. -/
def Call.isWorldUpdate : Call → Bool
  | .worldUpdate _ => true
  | _ => false

/-- Calls of kind `GuiManager::update`. -/
def Call.isGuiUpdate : Call → Bool
  | .guiUpdate _ _ => true
  | _ => false

/-- Calls of kind `PlayerFactory::create`. -/
def Call.isPlayerCreate : Call → Bool
  | .playerCreate _ => true
  | _ => false

/-- Calls of kind `World::setLevel`. -/
def Call.isSetLevel : Call → Bool
  | .worldSetLevel _ => true
  | _ => false

/-- Constructions of a `World`. -/
def Call.isWorldCreate : Call → Bool
  | .worldFromSave => true
  | .worldFresh => true
  | _ => false

/-- The calls the session methods themselves make (all of them in `startGame`). -/
def Call.fromSession : Call → Bool
  | .playerCreate _ => true
  | .worldAddCurrentPlayer => true
  | .guiSetPlayer => true
  | .worldSetLevel _ => true
  | _ => false

/-- What happens to render-state slots: the world is updated, a slot is
acquired, a slot is written, a slot is published. -/
inductive SlotEvent where
  | update
  | acquire (slot : Option Nat)
  | write (slot : Nat)
  | publish (slot : Option Nat)
  deriving DecidableEq, Repr

/-- The slot event of a call, if it is one. -/
def Call.slotEvent (c : Call) : Option SlotEvent :=
  match c with
  | .worldUpdate _ => some .update
  | .getFreeState slot => some (.acquire slot)
  | .setCurrentState slot => some (.publish slot)
  | _ => c.writesSlot.map SlotEvent.write

/-- The slot events of a list of calls, in order. -/
def slotEvents (t : List Call) : List SlotEvent := t.filterMap Call.slotEvent

/-- The fields of slot `slot` assigned by a list of calls, in order. -/
def fieldsWrittenTo (slot : Nat) (t : List Call) : List SlotField :=
  t.filterMap (fun c => if c.writesSlot = some slot then c.field else none)

/-- What happens to the deadline timer: it is constructed with a period, an
overrun is reported, it is waited for. -/
inductive TimerEvent where
  | start (ms : Int)
  | overrun (ms : Int)
  | wait (blockedMs : Int)
  deriving DecidableEq, Repr

/-- The timer event of a call, if it is one. -/
def Call.timerEvent : Call → Option TimerEvent
  | .timerStart ms => some (.start ms)
  | .reportOverrun ms => some (.overrun ms)
  | .timerWait ms => some (.wait ms)
  | _ => none

/-- The timer events of a list of calls, in order. -/
def timerEvents (t : List Call) : List TimerEvent := t.filterMap Call.timerEvent

/-- The session after the outside calls of points `0` to `k` of an iteration. -/
def sessionAt (create : String → Player) (te : TickEnv) (k : Nat) (s : Session) : Session :=
  (List.range (k + 1)).foldl (fun acc p => (applyCalls create (te.calls p) acc).1) s

/-- The transition table of `notify` as the specification words it. -/
def notifyTable (b : Bool) (a : KeyboardInputAction) (s : Session) : Session :=
  if b = true ∨ (s.mPaused = true ∧ a ≠ KeyboardInputAction.pause) then s
  else
    match a with
    | .pause => { s with mPaused := !s.mPaused }
    | .quit => { s with mDone := true }
    | .noclip => { s with mNoclip := !s.mNoclip }
    | .other _ => s

/-! ## Concrete inputs -/

/-- A session as `EngineMain` starts: no flag set, no player. -/
def freshSession : Session :=
  { mDone := false, mPaused := false, mNoclip := false, mInGame := false, mPlayer := none }

/-- A paused session. -/
def pausedSession : Session := { freshSession with mPaused := true }

/-- A player factory: a vulnerable player of the requested class at the origin. -/
def plainFactory (cls : String) : Player :=
  { cls := cls, mInvuln := false, pos := (0, 0), cursorGraphic := 0 }

/-- An iteration with no outside call: slot `0` is free, level `0` is loaded. -/
def quietTick : TickEnv :=
  { calls := fun _ => [], levelIndex := 0, freeState := some 0, currentLevel := some 0,
    cursorPathEmpty := true, worldCurrentPlayer := none, preload := none, duration := 3 }

/-- An iteration in which `stop()` is called twice while the slot is filled. -/
def stopTick : TickEnv :=
  { quietTick with calls := fun p => if p = 5 then [SessionCall.stop, SessionCall.stop] else [] }

/-- A session in a running game: in game, not paused, with a player. -/
def playingSession : Session :=
  { freshSession with mInGame := true, mPlayer := some (plainFactory "Warrior") }

/-- An iteration whose body takes exactly the tick budget of 8 ms (125 ticks per
second). -/
def boundaryTick : TickEnv := { quietTick with duration := 8 }

/-- An iteration whose body takes 11 ms. -/
def slowTick : TickEnv := { quietTick with duration := 11 }

/-- A start-up in which everything loads and there is no `save.sav`; `stop()` is
called during the first iteration. -/
def newGameEnv : Environment :=
  { settingsLoad := true, exeLoaded := true, save := none, create := plainFactory,
    ticksPerSecond := 125, ticks := fun _ => stopTick }

/-- A start-up in which the user settings fail to load inside `runGameLoop`. -/
def settingsFailEnv : Environment := { newGameEnv with settingsLoad := false }

/-- Command line asking for a rogue on level 3 with invulnerability on. -/
def rogueVars : Variables := { character := "Rogue", level := 3, invuln := "on" }

/-! ## Lemmas on the outside calls -/

theorem apply_keeps_done (create : String → Player) (c : SessionCall) (s : Session)
    (h : s.mDone = true) : (c.apply create s).1.mDone = true := by
  cases c with
  | notify b a =>
    simp only [SessionCall.apply, notify, stop, togglePause, toggleNoclip]
    split_ifs <;> simp [h]
  | stop => simp [SessionCall.apply, stop]
  | togglePause => simp [SessionCall.apply, togglePause, h]
  | toggleNoclip => simp [SessionCall.apply, toggleNoclip, h]
  | startGame cls => simp [SessionCall.apply, startGame, setupNewPlayer, h]

theorem applyCalls_keeps_done (create : String → Player) (cs : List SessionCall) :
    ∀ s : Session, s.mDone = true → (applyCalls create cs s).1.mDone = true := by
  induction cs with
  | nil => intro s h; simpa [applyCalls] using h
  | cons c cs ih =>
    intro s h
    simp only [applyCalls]
    exact ih _ (apply_keeps_done create c s h)

theorem applyCalls_stop_sets_done (create : String → Player) (cs : List SessionCall) :
    ∀ s : Session, SessionCall.stop ∈ cs → (applyCalls create cs s).1.mDone = true := by
  induction cs with
  | nil => intro s h; simp at h
  | cons c cs ih =>
    intro s h
    simp only [applyCalls]
    rcases List.mem_cons.mp h with h1 | h1
    · subst h1
      exact applyCalls_keeps_done create cs _ (by simp [SessionCall.apply, stop])
    · exact ih _ h1

theorem applyCalls_calls_fromSession (create : String → Player) (cs : List SessionCall) :
    ∀ s : Session, ∀ c ∈ (applyCalls create cs s).2, c.fromSession = true := by
  induction cs with
  | nil => intro s c h; simp [applyCalls] at h
  | cons d cs ih =>
    intro s c h
    simp only [applyCalls, List.mem_append] at h
    rcases h with h | h
    · cases d <;> simp [SessionCall.apply, startGame, setupNewPlayer] at h
      rcases h with h | h | h | h <;> subst h <;> rfl
    · exact ih _ c h

theorem applyCalls_filterMap_nil {β : Type} (f : Call → Option β)
    (hf : ∀ c : Call, c.fromSession = true → f c = none)
    (create : String → Player) (cs : List SessionCall) (s : Session) :
    (applyCalls create cs s).2.filterMap f = [] := by
  rw [List.filterMap_eq_nil_iff]
  intro c hc
  exact hf c (applyCalls_calls_fromSession create cs s c hc)

/-! ## Lemmas on one iteration -/

theorem sessionAt_succ (create : String → Player) (te : TickEnv) (k : Nat) (s : Session) :
    sessionAt create te (k + 1) s
      = (applyCalls create (te.calls (k + 1)) (sessionAt create te k s)).1 := by
  simp [sessionAt, List.range_succ, List.foldl_append]

theorem sessionAt_zero (create : String → Player) (te : TickEnv) (s : Session) :
    sessionAt create te 0 s = (applyCalls create (te.calls 0) s).1 := by
  simp [sessionAt, List.range_succ]

theorem sessionAt_keeps_done (create : String → Player) (te : TickEnv) (s : Session)
    (h : s.mDone = true) : ∀ k, (sessionAt create te k s).mDone = true := by
  intro k
  induction k with
  | zero => rw [sessionAt_zero]; exact applyCalls_keeps_done create _ s h
  | succ k ih => rw [sessionAt_succ]; exact applyCalls_keeps_done create _ _ ih

theorem sessionAt_stop_sets_done (create : String → Player) (te : TickEnv) (s : Session)
    (p : Nat) (hstop : SessionCall.stop ∈ te.calls p) :
    ∀ k, p ≤ k → (sessionAt create te k s).mDone = true := by
  intro k
  induction k with
  | zero =>
    intro hp
    have h0 : p = 0 := Nat.le_zero.mp hp
    subst h0
    rw [sessionAt_zero]
    exact applyCalls_stop_sets_done create _ s hstop
  | succ k ih =>
    intro hp
    rw [sessionAt_succ]
    rcases Nat.lt_or_ge p (k + 1) with hlt | hge
    · exact applyCalls_keeps_done create _ _ (ih (Nat.lt_succ_iff.mp hlt))
    · have hpk : p = k + 1 := Nat.le_antisymm hp hge
      subst hpk
      exact applyCalls_stop_sets_done create _ _ hstop

theorem worldPhase_session (te : TickEnv) (ls : LoopState) :
    (worldPhase te ls).1.session = ls.session := by
  unfold worldPhase
  split_ifs <;> rfl

theorem inputPhase_session (create : String → Player) (tps : Nat) (te : TickEnv) (s : Session) :
    (inputPhase create tps te s).1 = sessionAt create te 2 s := by
  simp [inputPhase, sessionAt_succ, sessionAt_zero]

theorem iteration_session (create : String → Player) (tps : Nat) (te : TickEnv)
    (ls : LoopState) :
    (iteration create tps te ls).1.session = sessionAt create te 8 ls.session := by
  simp [iteration, sessionAt_succ, worldPhase_session, inputPhase_session]

theorem stepsOf_append (a b : List Call) : stepsOf (a ++ b) = stepsOf a ++ stepsOf b := by
  simp [stepsOf, List.filterMap_append]

theorem stepsOf_applyCalls (create : String → Player) (cs : List SessionCall) (s : Session) :
    stepsOf (applyCalls create cs s).2 = [] := by
  apply applyCalls_filterMap_nil
  intro c hc
  cases c <;> simp_all [Call.fromSession, Call.step]

theorem stepsOf_worldPhase (te : TickEnv) (ls : LoopState) :
    stepsOf (worldPhase te ls).2
      = if (!ls.session.mPaused && ls.session.mInGame) = true then [Step.worldUpdate] else [] := by
  unfold worldPhase
  split_ifs <;> simp [stepsOf, Call.step]

theorem stepsOf_fillSlot (te : TickEnv) (s : Session) :
    stepsOf (fillSlot te s) = [Step.slotFill] := by
  unfold fillSlot slotWrites
  cases te.freeState <;> cases s.mPlayer <;> cases te.currentLevel <;>
    simp [stepsOf, Call.step]

theorem stepsOf_preloadPhase (te : TickEnv) : stepsOf (preloadPhase te) = [Step.preload] := by
  unfold preloadPhase
  cases te.preload <;> simp [stepsOf, Call.step]

theorem stepsOf_deadlinePhase (budget : Int) (duration : Nat) :
    stepsOf (deadlinePhase budget duration) = [Step.deadlineWait] := by
  unfold deadlinePhase
  simp only []
  split_ifs <;> simp [stepsOf, Call.step]

theorem stepsOf_inputPhase (create : String → Player) (tps : Nat) (te : TickEnv)
    (s : Session) :
    stepsOf (inputPhase create tps te s).2 = [Step.inputPoll, Step.localInput] := by
  simp only [inputPhase, stepsOf_append, stepsOf_applyCalls]
  simp [stepsOf, Call.step]

theorem iteration_steps (create : String → Player) (tps : Nat) (te : TickEnv)
    (ls : LoopState) :
    stepsOf (iteration create tps te ls).2
      = [Step.inputPoll, Step.localInput]
        ++ (if (!(sessionAt create te 2 ls.session).mPaused
              && (sessionAt create te 2 ls.session).mInGame) = true
            then [Step.worldUpdate] else [])
        ++ [Step.guiUpdate, Step.slotFill, Step.preload, Step.setCurrentState,
            Step.deadlineWait] := by
  have hw := stepsOf_worldPhase te { ls with session := (inputPhase create tps te ls.session).1 }
  simp only [inputPhase_session] at hw
  have hg : ∀ a b : Bool, stepsOf [Call.guiUpdate a b] = [Step.guiUpdate] := fun _ _ => rfl
  have hs : ∀ o : Option Nat, stepsOf [Call.nkClear, Call.setCurrentState o]
      = [Step.setCurrentState] := fun _ => rfl
  simp only [iteration, stepsOf_append, stepsOf_applyCalls, stepsOf_fillSlot,
    stepsOf_preloadPhase, stepsOf_deadlinePhase, stepsOf_inputPhase, inputPhase_session, hw, hg,
    hs, List.append_nil]
  simp

/-! ## Claims on `notify` -/

/-- C7: for every session state, every answer `b` of `isPauseBlocked` and every
keyboard action `a`, `notify` is the transition table: nothing changes when `b`
holds or when the session is paused and `a` is not pause; otherwise pause negates
`mPaused`, quit sets `mDone`, noclip negates `mNoclip`, any other action changes
nothing, and no other flag moves. -/
theorem C7_notify_is_transition_table (b : Bool) (a : KeyboardInputAction) (s : Session) :
    notify b a s = notifyTable b a s := by
  cases b <;> cases a <;> cases hp : s.mPaused <;>
    simp [notify, notifyTable, stop, togglePause, toggleNoclip, hp]

/-- C6, as stated, fails: in a paused session that the GUI does not block,
`notify(quit)` leaves `mDone` false. -/
theorem C6_quit_while_paused_is_suppressed :
    pausedSession.mPaused = true ∧
      (notify false KeyboardInputAction.quit pausedSession).mDone = false := by
  decide

/-- C6, amended: when the GUI does not block pause, `notify(quit)` leaves a paused
session unchanged (the pause guard returns first), and sets `mDone` when the session
is not paused. -/
theorem C6_quit_stops_only_when_not_paused (s : Session) :
    (s.mPaused = true → notify false KeyboardInputAction.quit s = s) ∧
      (s.mPaused = false → (notify false KeyboardInputAction.quit s).mDone = true) := by
  constructor
  · intro h; simp [notify, h]
  · intro h; simp [notify, stop, h]

/-- Witness of the amended C6 on a paused and on a fresh session. -/
theorem C6_quit_stops_only_when_not_paused_witness :
    notify false KeyboardInputAction.quit pausedSession = pausedSession ∧
      (notify false KeyboardInputAction.quit freshSession).mDone = true :=
  ⟨(C6_quit_stops_only_when_not_paused pausedSession).1 rfl,
    (C6_quit_stops_only_when_not_paused freshSession).2 rfl⟩

/-! ## Claims on the loop -/

/-- C1: if `mDone` is already true when the loop condition is first evaluated, no
iteration runs and the renderer is stopped and waited for.  If `stop()` is called
(once or more) at any point of an iteration, that iteration still performs every
step up to `setCurrentState` and the deadline wait, in order; the loop then ends
without another iteration and calls `renderer.stop()` then
`renderer.waitUntilDone()`. -/
theorem C1_stop_ends_loop_after_current_iteration (create : String → Player) (tps : Nat)
    (ticks : Nat → TickEnv) (fuel i : Nat) (ls : LoopState) :
    (ls.session.mDone = true →
      runLoop create tps ticks (fuel + 1) i ls
        = some (ls, [Call.rendererStop, Call.rendererWaitUntilDone])) ∧
    (ls.session.mDone = false →
      ∀ p : Nat, p ≤ 8 → SessionCall.stop ∈ (ticks i).calls p →
        runLoop create tps ticks (fuel + 2) i ls
          = some ((iteration create tps (ticks i) ls).1,
              (iteration create tps (ticks i) ls).2
                ++ [Call.rendererStop, Call.rendererWaitUntilDone]) ∧
        (stepsOf (iteration create tps (ticks i) ls).2).filter (fun st => st != Step.worldUpdate)
          = [Step.inputPoll, Step.localInput, Step.guiUpdate, Step.slotFill, Step.preload,
              Step.setCurrentState, Step.deadlineWait]) := by
  constructor
  · intro h
    simp [runLoop, h]
  · intro h p hp hstop
    have hdone : (iteration create tps (ticks i) ls).1.session.mDone = true := by
      rw [iteration_session]
      exact sessionAt_stop_sets_done create (ticks i) ls.session p hstop 8 hp
    constructor
    · simp [runLoop, h, hdone]
    · rw [iteration_steps]
      split_ifs <;> decide

/-- Witness of C1: `stop()` called twice during the slot fill of the first iteration. -/
theorem C1_stop_ends_loop_after_current_iteration_witness :
    runLoop plainFactory 125 (fun _ => stopTick) 2 0 ⟨freshSession, -1⟩
      = some ((iteration plainFactory 125 stopTick ⟨freshSession, -1⟩).1,
          (iteration plainFactory 125 stopTick ⟨freshSession, -1⟩).2
            ++ [Call.rendererStop, Call.rendererWaitUntilDone]) ∧
      (stepsOf (iteration plainFactory 125 stopTick ⟨freshSession, -1⟩).2).filter
          (fun st => st != Step.worldUpdate)
        = [Step.inputPoll, Step.localInput, Step.guiUpdate, Step.slotFill, Step.preload,
            Step.setCurrentState, Step.deadlineWait] :=
  (C1_stop_ends_loop_after_current_iteration plainFactory 125 (fun _ => stopTick) 0 0
    ⟨freshSession, -1⟩).2 rfl 5 (by decide) (by simp [stopTick])

/-! ## Filtering the calls of one iteration -/

theorem countP_isWorldUpdate (t : List Call) :
    t.countP Call.isWorldUpdate = (stepsOf t).count Step.worldUpdate := by
  induction t with
  | nil => rfl
  | cons c t ih =>
    cases c <;> simp_all [stepsOf, Call.step, Call.isWorldUpdate, List.countP_cons]

theorem countP_isGuiUpdate (t : List Call) :
    t.countP Call.isGuiUpdate = (stepsOf t).count Step.guiUpdate := by
  induction t with
  | nil => rfl
  | cons c t ih =>
    cases c <;> simp_all [stepsOf, Call.step, Call.isGuiUpdate, List.countP_cons]

/-- C2: in every iteration `World::update` is called exactly once when the flags
the loop reads after the input handling of that iteration (input poll, then
local-input update) have `mPaused` false and `mInGame` true, and not at all
otherwise; `GuiManager::update` is called exactly once whatever the flags are.
When the local-input update invokes no session method, the flags read are those
the input poll left. -/
theorem C2_world_update_guarded_gui_update_always (create : String → Player) (tps : Nat)
    (te : TickEnv) (ls : LoopState) :
    (iteration create tps te ls).2.countP Call.isWorldUpdate
        = (if (!(sessionAt create te 2 ls.session).mPaused
              && (sessionAt create te 2 ls.session).mInGame) = true then 1 else 0) ∧
      (iteration create tps te ls).2.countP Call.isGuiUpdate = 1 ∧
      (te.calls 2 = [] →
        sessionAt create te 2 ls.session = sessionAt create te 1 ls.session) := by
  refine ⟨?_, ?_, ?_⟩
  · rw [countP_isWorldUpdate, iteration_steps]
    split_ifs <;> decide
  · rw [countP_isGuiUpdate, iteration_steps]
    split_ifs <;> decide
  · intro h
    rw [sessionAt_succ, h]
    rfl

/-- Witness of C2: an unpaused in-game session with no outside call. -/
theorem C2_world_update_guarded_gui_update_always_witness :
    (iteration plainFactory 125 quietTick ⟨playingSession, -1⟩).2.countP Call.isWorldUpdate = 1 ∧
      (iteration plainFactory 125 quietTick ⟨playingSession, -1⟩).2.countP Call.isGuiUpdate = 1 ∧
      sessionAt plainFactory quietTick 2 playingSession
        = sessionAt plainFactory quietTick 1 playingSession :=
  ⟨(C2_world_update_guarded_gui_update_always plainFactory 125 quietTick
      ⟨playingSession, -1⟩).1.trans (by decide),
    (C2_world_update_guarded_gui_update_always plainFactory 125 quietTick
      ⟨playingSession, -1⟩).2.1,
    (C2_world_update_guarded_gui_update_always plainFactory 125 quietTick
      ⟨playingSession, -1⟩).2.2 rfl⟩

/-! ## Slot events of one iteration -/

theorem slotEvents_append (a b : List Call) :
    slotEvents (a ++ b) = slotEvents a ++ slotEvents b := by
  simp [slotEvents, List.filterMap_append]

theorem slotEvents_applyCalls (create : String → Player) (cs : List SessionCall) (s : Session) :
    slotEvents (applyCalls create cs s).2 = [] := by
  apply applyCalls_filterMap_nil
  intro c hc
  cases c <;> simp_all [Call.fromSession, Call.slotEvent, Call.writesSlot]

theorem slotEvents_inputPhase (create : String → Player) (tps : Nat) (te : TickEnv)
    (s : Session) : slotEvents (inputPhase create tps te s).2 = [] := by
  simp only [inputPhase, slotEvents_append, slotEvents_applyCalls]
  simp [slotEvents, Call.slotEvent, Call.writesSlot]

theorem slotEvents_worldPhase (te : TickEnv) (ls : LoopState) :
    slotEvents (worldPhase te ls).2
      = if (!ls.session.mPaused && ls.session.mInGame) = true then [SlotEvent.update] else [] := by
  unfold worldPhase
  split_ifs <;> simp [slotEvents, Call.slotEvent, Call.writesSlot]

theorem slotEvents_slotWrites (te : TickEnv) (s : Session) :
    ∃ ws : List Nat, slotEvents (slotWrites te s) = ws.map SlotEvent.write ∧
      ∀ w ∈ ws, te.freeState = some w := by
  unfold slotWrites
  cases hf : te.freeState with
  | none => exact ⟨[], by simp [slotEvents], by simp⟩
  | some state =>
    cases s.mPlayer with
    | none =>
      exact ⟨List.replicate 5 state, by simp [slotEvents, Call.slotEvent, Call.writesSlot],
        by intro w hw; rw [List.eq_of_mem_replicate hw]⟩
    | some player =>
      cases te.currentLevel with
      | none =>
        exact ⟨List.replicate 7 state, by simp [slotEvents, Call.slotEvent, Call.writesSlot],
          by intro w hw; rw [List.eq_of_mem_replicate hw]⟩
      | some level =>
        exact ⟨List.replicate 8 state, by simp [slotEvents, Call.slotEvent, Call.writesSlot],
          by intro w hw; rw [List.eq_of_mem_replicate hw]⟩

theorem slotEvents_preloadPhase (te : TickEnv) : slotEvents (preloadPhase te) = [] := by
  unfold preloadPhase
  cases te.preload <;> simp [slotEvents, Call.slotEvent, Call.writesSlot]

theorem slotEvents_deadlinePhase (budget : Int) (duration : Nat) :
    slotEvents (deadlinePhase budget duration) = [] := by
  unfold deadlinePhase
  simp only []
  split_ifs <;> simp [slotEvents, Call.slotEvent, Call.writesSlot]

/-- C3: in every iteration the slot events are, in this order: the world update
(when it runs), one `getFreeState`, writes to the slot it returned and to no
other, one `setCurrentState` whose argument is the value `getFreeState` returned;
nothing is written after `setCurrentState` and nothing before the world update. -/
theorem C3_slot_written_between_update_and_publish (create : String → Player) (tps : Nat)
    (te : TickEnv) (ls : LoopState) :
    ∃ ws : List Nat,
      slotEvents (iteration create tps te ls).2
        = (if (!(sessionAt create te 2 ls.session).mPaused
              && (sessionAt create te 2 ls.session).mInGame) = true
            then [SlotEvent.update] else [])
          ++ [SlotEvent.acquire te.freeState] ++ ws.map SlotEvent.write
          ++ [SlotEvent.publish te.freeState] ∧
      ∀ w ∈ ws, te.freeState = some w := by
  have hw := slotEvents_worldPhase te
    { ls with session := (inputPhase create tps te ls.session).1 }
  simp only [inputPhase_session] at hw
  obtain ⟨ws, hws, hall⟩ := slotEvents_slotWrites te
    (applyCalls create (te.calls 4) (applyCalls create (te.calls 3)
      (worldPhase te { ls with session := (inputPhase create tps te ls.session).1 }).1.session).1).1
  refine ⟨ws, ?_, hall⟩
  simp only [inputPhase_session] at hws
  have hg : ∀ a b : Bool, slotEvents [Call.guiUpdate a b] = [] := fun _ _ => rfl
  have hs : ∀ o : Option Nat, slotEvents [Call.nkClear, Call.setCurrentState o]
      = [SlotEvent.publish o] := fun _ => rfl
  have ha : ∀ o : Option Nat, slotEvents [Call.getFreeState o] = [SlotEvent.acquire o] :=
    fun _ => rfl
  simp only [iteration, fillSlot, slotEvents_append, slotEvents_applyCalls,
    slotEvents_preloadPhase, slotEvents_deadlinePhase, slotEvents_inputPhase,
    inputPhase_session, hws, hw, hg, hs, ha, List.append_nil, List.nil_append,
    List.append_assoc]

/-! ## Fields written in one iteration -/

theorem fieldsWrittenTo_append (slot : Nat) (a b : List Call) :
    fieldsWrittenTo slot (a ++ b) = fieldsWrittenTo slot a ++ fieldsWrittenTo slot b := by
  simp [fieldsWrittenTo, List.filterMap_append]

theorem fieldsWrittenTo_applyCalls (slot : Nat) (create : String → Player)
    (cs : List SessionCall) (s : Session) :
    fieldsWrittenTo slot (applyCalls create cs s).2 = [] := by
  apply applyCalls_filterMap_nil
  intro c hc
  cases c <;> simp_all [Call.fromSession, Call.field, Call.writesSlot]

theorem fieldsWrittenTo_inputPhase (slot : Nat) (create : String → Player) (tps : Nat)
    (te : TickEnv) (s : Session) : fieldsWrittenTo slot (inputPhase create tps te s).2 = [] := by
  simp only [inputPhase, fieldsWrittenTo_append, fieldsWrittenTo_applyCalls]
  simp [fieldsWrittenTo, Call.field, Call.writesSlot]

theorem fieldsWrittenTo_worldPhase (slot : Nat) (te : TickEnv) (ls : LoopState) :
    fieldsWrittenTo slot (worldPhase te ls).2 = [] := by
  unfold worldPhase
  split_ifs <;> simp [fieldsWrittenTo, Call.field, Call.writesSlot]

theorem fieldsWrittenTo_preloadPhase (slot : Nat) (te : TickEnv) :
    fieldsWrittenTo slot (preloadPhase te) = [] := by
  unfold preloadPhase
  cases te.preload <;> simp [fieldsWrittenTo, Call.field, Call.writesSlot]

theorem fieldsWrittenTo_deadlinePhase (slot : Nat) (budget : Int) (duration : Nat) :
    fieldsWrittenTo slot (deadlinePhase budget duration) = [] := by
  unfold deadlinePhase
  simp only []
  split_ifs <;> simp [fieldsWrittenTo, Call.field, Call.writesSlot]

theorem fieldsWrittenTo_slotWrites (slot : Nat) (te : TickEnv) (s : Session)
    (h : te.freeState = some slot) :
    fieldsWrittenTo slot (slotWrites te s)
      = (match s.mPlayer with
          | some _ =>
            [SlotField.mPos] ++ (match te.currentLevel with
              | some _ => [SlotField.tileset]
              | none => []) ++ [SlotField.level]
          | none => [SlotField.level])
        ++ [SlotField.mCursorEmpty, SlotField.mCursorFrame, SlotField.mCursorSpriteGroup,
            SlotField.nuklearData] := by
  unfold slotWrites
  rw [h]
  cases s.mPlayer <;> cases te.currentLevel <;>
    simp [fieldsWrittenTo, Call.field, Call.writesSlot]

theorem fieldsWrittenTo_iteration (slot : Nat) (create : String → Player) (tps : Nat)
    (te : TickEnv) (ls : LoopState) :
    fieldsWrittenTo slot (iteration create tps te ls).2
      = fieldsWrittenTo slot (slotWrites te (sessionAt create te 4 ls.session)) := by
  have hg : ∀ a b : Bool, fieldsWrittenTo slot [Call.guiUpdate a b] = [] := fun _ _ => rfl
  have hs : ∀ o : Option Nat, fieldsWrittenTo slot [Call.nkClear, Call.setCurrentState o] = [] :=
    fun _ => rfl
  have ha : ∀ o : Option Nat, fieldsWrittenTo slot [Call.getFreeState o] = [] := fun _ => rfl
  simp only [iteration, fillSlot, fieldsWrittenTo_append, fieldsWrittenTo_applyCalls,
    fieldsWrittenTo_preloadPhase, fieldsWrittenTo_deadlinePhase, fieldsWrittenTo_inputPhase,
    fieldsWrittenTo_worldPhase, inputPhase_session, worldPhase_session, hg, hs, ha,
    List.append_nil, List.nil_append, sessionAt_succ]

/-- C4, as stated, fails: with a free slot and no player (`mPlayer` null) the
iteration writes neither the position nor the tileset of the slot it publishes. -/
theorem C4_no_player_leaves_position_unwritten :
    quietTick.freeState = some 0 ∧
      SlotField.mPos ∉ fieldsWrittenTo 0 (iteration plainFactory 125 quietTick ⟨freshSession, -1⟩).2 ∧
      SlotField.tileset ∉
        fieldsWrittenTo 0 (iteration plainFactory 125 quietTick ⟨freshSession, -1⟩).2 := by
  refine ⟨rfl, ?_, ?_⟩ <;>
    · rw [fieldsWrittenTo_iteration, fieldsWrittenTo_slotWrites 0 _ _ rfl]
      decide

/-- C4, amended: when `getFreeState` returns a slot, the iteration assigns the
level, the cursor-empty flag, the cursor frame, the cursor sprite group and the UI
draw-command buffer of that slot whatever `mPlayer` and the current level are; it
assigns the player position exactly when `mPlayer` is set, and the tileset exactly
when `mPlayer` is set and the world has a current level. -/
theorem C4_fields_written_to_published_slot (create : String → Player) (tps : Nat)
    (te : TickEnv) (ls : LoopState) (slot : Nat) (h : te.freeState = some slot) :
    SlotField.level ∈ fieldsWrittenTo slot (iteration create tps te ls).2 ∧
      SlotField.mCursorEmpty ∈ fieldsWrittenTo slot (iteration create tps te ls).2 ∧
      SlotField.mCursorFrame ∈ fieldsWrittenTo slot (iteration create tps te ls).2 ∧
      SlotField.mCursorSpriteGroup ∈ fieldsWrittenTo slot (iteration create tps te ls).2 ∧
      SlotField.nuklearData ∈ fieldsWrittenTo slot (iteration create tps te ls).2 ∧
      (SlotField.mPos ∈ fieldsWrittenTo slot (iteration create tps te ls).2
        ↔ (sessionAt create te 4 ls.session).mPlayer.isSome = true) ∧
      (SlotField.tileset ∈ fieldsWrittenTo slot (iteration create tps te ls).2
        ↔ (sessionAt create te 4 ls.session).mPlayer.isSome = true
          ∧ te.currentLevel.isSome = true) := by
  rw [fieldsWrittenTo_iteration, fieldsWrittenTo_slotWrites slot _ _ h]
  cases (sessionAt create te 4 ls.session).mPlayer <;> cases te.currentLevel <;> simp

/-- Witness of the amended C4: a running game with a player and a current level. -/
theorem C4_fields_written_to_published_slot_witness :
    SlotField.level ∈ fieldsWrittenTo 0 (iteration plainFactory 125 quietTick ⟨playingSession, -1⟩).2 ∧
      SlotField.mCursorEmpty
        ∈ fieldsWrittenTo 0 (iteration plainFactory 125 quietTick ⟨playingSession, -1⟩).2 ∧
      SlotField.mCursorFrame
        ∈ fieldsWrittenTo 0 (iteration plainFactory 125 quietTick ⟨playingSession, -1⟩).2 ∧
      SlotField.mCursorSpriteGroup
        ∈ fieldsWrittenTo 0 (iteration plainFactory 125 quietTick ⟨playingSession, -1⟩).2 ∧
      SlotField.nuklearData
        ∈ fieldsWrittenTo 0 (iteration plainFactory 125 quietTick ⟨playingSession, -1⟩).2 ∧
      (SlotField.mPos ∈ fieldsWrittenTo 0 (iteration plainFactory 125 quietTick ⟨playingSession, -1⟩).2
        ↔ (sessionAt plainFactory quietTick 4 playingSession).mPlayer.isSome = true) ∧
      (SlotField.tileset
          ∈ fieldsWrittenTo 0 (iteration plainFactory 125 quietTick ⟨playingSession, -1⟩).2
        ↔ (sessionAt plainFactory quietTick 4 playingSession).mPlayer.isSome = true
          ∧ quietTick.currentLevel.isSome = true) :=
  C4_fields_written_to_published_slot plainFactory 125 quietTick ⟨playingSession, -1⟩ 0 rfl

/-! ## Timer events of one iteration -/

theorem timerEvents_append (a b : List Call) :
    timerEvents (a ++ b) = timerEvents a ++ timerEvents b := by
  simp [timerEvents, List.filterMap_append]

theorem timerEvents_applyCalls (create : String → Player) (cs : List SessionCall) (s : Session) :
    timerEvents (applyCalls create cs s).2 = [] := by
  apply applyCalls_filterMap_nil
  intro c hc
  cases c <;> simp_all [Call.fromSession, Call.timerEvent]

theorem timerEvents_inputPhase (create : String → Player) (tps : Nat) (te : TickEnv)
    (s : Session) :
    timerEvents (inputPhase create tps te s).2 = [TimerEvent.start (1000 / (tps : Int))] := by
  simp only [inputPhase, timerEvents_append, timerEvents_applyCalls]
  simp [timerEvents, Call.timerEvent]

theorem timerEvents_worldPhase (te : TickEnv) (ls : LoopState) :
    timerEvents (worldPhase te ls).2 = [] := by
  unfold worldPhase
  split_ifs <;> simp [timerEvents, Call.timerEvent]

theorem timerEvents_slotWrites (te : TickEnv) (s : Session) :
    timerEvents (slotWrites te s) = [] := by
  unfold slotWrites
  cases te.freeState <;> cases s.mPlayer <;> cases te.currentLevel <;>
    simp [timerEvents, Call.timerEvent]

theorem timerEvents_preloadPhase (te : TickEnv) : timerEvents (preloadPhase te) = [] := by
  unfold preloadPhase
  cases te.preload <;> simp [timerEvents, Call.timerEvent]

theorem timerEvents_deadlinePhase (budget : Int) (duration : Nat) :
    timerEvents (deadlinePhase budget duration)
      = (if budget - (duration : Int) < 0
          then [TimerEvent.overrun (-(budget - (duration : Int)))] else [])
        ++ [TimerEvent.wait (max (budget - (duration : Int)) 0)] := by
  unfold deadlinePhase
  simp only []
  split_ifs <;> simp [timerEvents, Call.timerEvent]

theorem timerEvents_iteration (create : String → Player) (tps : Nat) (te : TickEnv)
    (ls : LoopState) :
    timerEvents (iteration create tps te ls).2
      = [TimerEvent.start (1000 / (tps : Int))]
        ++ timerEvents (deadlinePhase (1000 / (tps : Int)) te.duration) := by
  have hg : ∀ a b : Bool, timerEvents [Call.guiUpdate a b] = [] := fun _ _ => rfl
  have hs : ∀ o : Option Nat, timerEvents [Call.nkClear, Call.setCurrentState o] = [] :=
    fun _ => rfl
  have ha : ∀ o : Option Nat, timerEvents [Call.getFreeState o] = [] := fun _ => rfl
  simp only [iteration, fillSlot, timerEvents_append, timerEvents_applyCalls,
    timerEvents_preloadPhase, timerEvents_inputPhase, timerEvents_worldPhase,
    timerEvents_slotWrites, hg, hs, ha, List.append_nil, List.nil_append]

/-- C5, as stated, fails at the boundary: with 125 ticks per second the budget is
8 ms, and an iteration whose body takes exactly 8 ms (duration >= budget) reports
no overrun at all. -/
theorem C5_no_report_when_duration_equals_budget :
    (1000 / 125 : Int) ≤ (boundaryTick.duration : Int) ∧
      ∀ ms : Int, TimerEvent.overrun ms
        ∉ timerEvents (iteration plainFactory 125 boundaryTick ⟨freshSession, -1⟩).2 := by
  refine ⟨by decide, ?_⟩
  intro ms
  rw [timerEvents_iteration, timerEvents_deadlinePhase]
  simp [boundaryTick, quietTick]

/-- C5, amended: in whole milliseconds, with budget `1000 / ticksPerSecond` (integer
division) fixed when the timer is built at the start of the iteration: a body that
takes longer than the budget reports an overrun of exactly `duration - budget` and
the wait does not block; a body that takes exactly the budget reports nothing and
the wait does not block; a shorter body reports nothing and the wait lasts
`budget - duration`. -/
theorem C5_deadline_overrun_and_wait (create : String → Player) (tps : Nat) (te : TickEnv)
    (ls : LoopState) (_htps : 0 < tps) :
    ((1000 / (tps : Int)) < (te.duration : Int) →
        timerEvents (iteration create tps te ls).2
          = [TimerEvent.start (1000 / (tps : Int)),
              TimerEvent.overrun ((te.duration : Int) - 1000 / (tps : Int)),
              TimerEvent.wait 0]) ∧
      ((te.duration : Int) = 1000 / (tps : Int) →
        timerEvents (iteration create tps te ls).2
          = [TimerEvent.start (1000 / (tps : Int)), TimerEvent.wait 0]) ∧
      ((te.duration : Int) < 1000 / (tps : Int) →
        timerEvents (iteration create tps te ls).2
          = [TimerEvent.start (1000 / (tps : Int)),
              TimerEvent.wait (1000 / (tps : Int) - (te.duration : Int))]) := by
  rw [timerEvents_iteration, timerEvents_deadlinePhase]
  refine ⟨?_, ?_, ?_⟩
  · intro h
    have h1 : 1000 / (tps : Int) - (te.duration : Int) < 0 := by omega
    have h2 : max (1000 / (tps : Int) - (te.duration : Int)) 0 = 0 := max_eq_right (by omega)
    simp [h1, h2]
  · intro h
    have h1 : ¬ (1000 / (tps : Int) - (te.duration : Int) < 0) := by omega
    have h2 : max (1000 / (tps : Int) - (te.duration : Int)) 0 = 0 := max_eq_right (by omega)
    simp only [h1, h2, if_false, List.nil_append, List.cons_append]
  · intro h
    have h1 : ¬ (1000 / (tps : Int) - (te.duration : Int) < 0) := by omega
    have h2 : max (1000 / (tps : Int) - (te.duration : Int)) 0
        = 1000 / (tps : Int) - (te.duration : Int) := max_eq_left (by omega)
    simp only [h1, h2, if_false, List.nil_append, List.cons_append]

/-- Witness of the amended C5: 125 ticks per second, bodies of 11 ms and of 3 ms. -/
theorem C5_deadline_overrun_and_wait_witness :
    timerEvents (iteration plainFactory 125 slowTick ⟨freshSession, -1⟩).2
        = [TimerEvent.start (1000 / ((125 : Nat) : Int)),
            TimerEvent.overrun ((slowTick.duration : Int) - 1000 / ((125 : Nat) : Int)),
            TimerEvent.wait 0] ∧
      timerEvents (iteration plainFactory 125 quietTick ⟨freshSession, -1⟩).2
        = [TimerEvent.start (1000 / ((125 : Nat) : Int)),
            TimerEvent.wait (1000 / ((125 : Nat) : Int) - (quietTick.duration : Int))] :=
  ⟨(C5_deadline_overrun_and_wait plainFactory 125 slowTick ⟨freshSession, -1⟩
      (by decide)).1 (by decide),
    (C5_deadline_overrun_and_wait plainFactory 125 quietTick ⟨freshSession, -1⟩
      (by decide)).2.2 (by decide)⟩

/-! ## Claims on start-up -/

/-- C8 (the code departs from the claim): when the user settings fail to load,
`runGameLoop` returns after `srand` and the settings load alone, so no world is
built and the loop is not entered, but `renderer.stop()` is not called; when the
settings load and the game data does not, it returns right after calling
`renderer.stop()`. -/
theorem C8_settings_failure_returns_without_renderer_stop (fuel : Nat) (env : Environment)
    (vars : Variables) (s : Session) :
    runGameLoop fuel { env with settingsLoad := false } vars s
        = some (s, [Call.srand, Call.loadUserSettings]) ∧
      runGameLoop fuel { env with settingsLoad := true, exeLoaded := false } vars s
        = some (s, [Call.srand, Call.loadUserSettings, Call.loadExe, Call.rendererStop]) := by
  constructor <;> simp [runGameLoop, startup]

/-- C10: when settings and game data load and `save.sav` does not open, a fresh
world is built and `generateLevels` is called; with a requested level `L` other
than -1 the loop is reached with `mInGame` true and `mPlayer` the one player made by
`PlayerFactory::create` for the requested class, its `mInvuln` set to true when the
invuln option is "on" and left as the factory made it otherwise, and
`World::setLevel(L)` is called; with `L = -1` no player is made, `mInGame` and
`mPlayer` are unchanged and `setLevel` is not called. -/
theorem C10_new_game_follows_command_line (env : Environment) (vars : Variables) (s : Session)
    (hs : env.settingsLoad = true) (he : env.exeLoaded = true) (hsave : env.save = none) :
    (startup env vars s).2.1.filter Call.isWorldCreate = [Call.worldFresh] ∧
      Call.generateLevels ∈ (startup env vars s).2.1 ∧
      (vars.level ≠ -1 →
        (∃ ls : LoopState, (startup env vars s).2.2 = some ls ∧ ls.session.mInGame = true ∧
          ls.session.mPlayer = some (if vars.invuln = "on"
            then { env.create vars.character with mInvuln := true }
            else env.create vars.character)) ∧
        (startup env vars s).2.1.filter Call.isPlayerCreate
          = [Call.playerCreate vars.character] ∧
        (startup env vars s).2.1.filter Call.isSetLevel = [Call.worldSetLevel vars.level]) ∧
      (vars.level = -1 →
        (∃ ls : LoopState, (startup env vars s).2.2 = some ls ∧
          ls.session.mInGame = s.mInGame ∧ ls.session.mPlayer = s.mPlayer) ∧
        (startup env vars s).2.1.filter Call.isPlayerCreate = [] ∧
        (startup env vars s).2.1.filter Call.isSetLevel = []) := by
  refine ⟨?_, ?_, ?_, ?_⟩
  · by_cases hl : vars.level = -1 <;> cases hp : s.mPlayer <;>
      simp [startup, loadOrCreateWorld, finishSetup, setupNewPlayer, hs, he, hsave, hl, hp,
        Call.isWorldCreate]
  · by_cases hl : vars.level = -1 <;>
      simp [startup, loadOrCreateWorld, finishSetup, setupNewPlayer, hs, he, hsave, hl]
  · intro hl
    refine ⟨?_, ?_, ?_⟩
    · by_cases hi : vars.invuln = "on" <;>
        simp [startup, loadOrCreateWorld, finishSetup, setupNewPlayer, hs, he, hsave, hl, hi]
    · simp [startup, loadOrCreateWorld, finishSetup, setupNewPlayer, hs, he, hsave, hl,
        Call.isPlayerCreate]
    · simp [startup, loadOrCreateWorld, finishSetup, setupNewPlayer, hs, he, hsave, hl,
        Call.isSetLevel]
  · intro hl
    refine ⟨?_, ?_, ?_⟩
    · cases hp : s.mPlayer <;>
        simp [startup, loadOrCreateWorld, finishSetup, setupNewPlayer, hs, he, hsave, hl, hp]
    · cases hp : s.mPlayer <;>
        simp [startup, loadOrCreateWorld, finishSetup, setupNewPlayer, hs, he, hsave, hl, hp,
          Call.isPlayerCreate]
    · cases hp : s.mPlayer <;>
        simp [startup, loadOrCreateWorld, finishSetup, setupNewPlayer, hs, he, hsave, hl, hp,
          Call.isSetLevel]

/-- Witness of C10: no save, an invulnerable rogue requested on level 3. -/
theorem C10_new_game_follows_command_line_witness :
    (∃ ls : LoopState, (startup newGameEnv rogueVars freshSession).2.2 = some ls ∧
        ls.session.mInGame = true ∧
        ls.session.mPlayer = some (if rogueVars.invuln = "on"
          then { newGameEnv.create rogueVars.character with mInvuln := true }
          else newGameEnv.create rogueVars.character)) ∧
      (startup newGameEnv rogueVars freshSession).2.1.filter Call.isPlayerCreate
        = [Call.playerCreate rogueVars.character] ∧
      (startup newGameEnv rogueVars freshSession).2.1.filter Call.isSetLevel
        = [Call.worldSetLevel rogueVars.level] :=
  (C10_new_game_follows_command_line newGameEnv rogueVars freshSession rfl rfl rfl).2.2.1
    (by decide)

end Engine
